import Mathlib

/-!
Verification of the AIStudioToAPI core against its specification.

Shallow embedding of:
  - `src/utils/MessageQueue.js` (the exported version of the class,
    lines 129-190: the one with `closeReason`),
  - `src/core/ConnectionRegistry.js`,
  - `src/core/RequestHandler.js` (`_executeRequestWithRetries`,
    `_handleNonStreamResponse`'s frame loop, `_processImageInResponse`,
    `_handlePseudoStreamResponse`'s record splitting,
    `_setResponseHeaders` header rewriting,
    `_setupClientDisconnectHandler`),
  - `scripts/client/build.js` (`_transmitHeaders` header rewriting and
    `_constructUrl` target re-routing).

JavaScript strings/JSON are modelled by an explicit `Json` AST with a
faithful `jsonStringify`; machine state (queues, the registry) is modelled
by explicit records with pure step functions that additionally emit the
observable events (frames delivered, queues closed, callbacks invoked).
-/

/- ===================== MessageQueue (src/utils/MessageQueue.js) ===================== -/

/-- State of one `MessageQueue` object: `messages` is the buffered-frame
array, `waiters` the number of parked resolvers in `waitingResolvers`
(every resolver in the array has a live timer), `closed`/`closeReason`
the fields of the same name.  Frames are opaque ids. -/
structure MQState where
  messages : List Nat
  waiters : Nat
  closed : Bool
  closeReason : Option String
deriving Repr, DecidableEq

/-- A fresh queue as built by the constructor. -/
def MQState.initial : MQState :=
  { messages := [], waiters := 0, closed := false, closeReason := none }

/-- Observable outcomes of queue operations. -/
inductive MQEvent where
  | delivered (frame : Nat)
  | parked
  | closedErr (reason : String)
  | timeoutErr
deriving Repr, DecidableEq

/-- Operations on one queue: `enq` is `enqueue`, `deq` is `dequeue`,
`close r` is `close(r)`, `timerFire` is the body of a parked dequeuer's
timeout firing. -/
inductive MQOp where
  | enq (frame : Nat)
  | deq
  | close (reason : String)
  | timerFire
deriving Repr, DecidableEq

/-- `enqueue(message)`: no-op when closed; hands the frame to the oldest
parked waiter if any, else buffers it (MessageQueue.js 139-154). -/
def MQState.enqueue (s : MQState) (f : Nat) : MQState × List MQEvent :=
  if s.closed then (s, [])
  else if s.waiters > 0 then
    ({ s with waiters := s.waiters - 1 }, [MQEvent.delivered f])
  else
    ({ s with messages := s.messages ++ [f] }, [])

/-- `dequeue(timeoutMs)`: throws `QueueClosedError` with the stored
`closeReason` (default `"unknown"`) when closed; otherwise returns the
buffered head or parks a resolver (MessageQueue.js 156-178). -/
def MQState.dequeue (s : MQState) : MQState × List MQEvent :=
  if s.closed then (s, [MQEvent.closedErr (s.closeReason.getD "unknown")])
  else
    match s.messages with
    | m :: rest => ({ s with messages := rest }, [MQEvent.delivered m])
    | [] => ({ s with waiters := s.waiters + 1 }, [MQEvent.parked])

/-- `close(reason)`: marks closed, stores the reason, rejects every parked
waiter with `QueueClosedError(reason)`, drops the buffer
(MessageQueue.js 180-189). -/
def MQState.closeOp (s : MQState) (r : String) : MQState × List MQEvent :=
  ({ messages := [], waiters := 0, closed := true, closeReason := some r },
   List.replicate s.waiters (MQEvent.closedErr r))

/-- The `setTimeout` body of a parked dequeue: the resolver is spliced out
of `waitingResolvers` and rejected with `QueueTimeoutError`
(MessageQueue.js 168-176). -/
def MQState.timerFire (s : MQState) : MQState × List MQEvent :=
  if s.waiters > 0 then ({ s with waiters := s.waiters - 1 }, [MQEvent.timeoutErr])
  else (s, [])

/-- One queue operation as a step of the state machine. -/
def MQState.step (s : MQState) : MQOp → MQState × List MQEvent
  | MQOp.enq f => s.enqueue f
  | MQOp.deq => s.dequeue
  | MQOp.close r => s.closeOp r
  | MQOp.timerFire => s.timerFire

/-- Run a sequence of queue operations, accumulating the emitted events. -/
def mqRun : MQState → List MQOp → MQState × List MQEvent
  | s, [] => (s, [])
  | s, op :: ops =>
    let x := s.step op
    let y := mqRun x.1 ops
    (y.1, x.2 ++ y.2)

/-- The frames the queue accepted: those enqueued while the queue was not
closed (an `enqueue` on a closed queue is a no-op and is not accepted). -/
def mqAccepted : MQState → List MQOp → List Nat
  | _, [] => []
  | s, op :: ops =>
    let s1 := (s.step op).1
    match op with
    | MQOp.enq f => (if s.closed then [] else [f]) ++ mqAccepted s1 ops
    | _ => mqAccepted s1 ops

/-- The frames delivered to a dequeuer, in delivery order. -/
def mqDelivered (evs : List MQEvent) : List Nat :=
  evs.filterMap fun e =>
    match e with
    | MQEvent.delivered f => some f
    | _ => none

/-- Structural invariant of a queue state: a parked waiter implies an empty
buffer, and a closed queue has an empty buffer (both hold for every state
reachable from `MQState.initial`). -/
def MQInv (s : MQState) : Prop :=
  (s.waiters > 0 → s.messages = []) ∧ (s.closed = true → s.messages = [])

/- ===================== ConnectionRegistry (src/core/ConnectionRegistry.js) ===================== -/

/-- Association-map helpers for the `messageQueues` Map (request id to
queue object) and the queue heap (object id to queue state). -/
def assocGet (m : List (String × Nat)) (k : String) : Option Nat :=
  (m.find? fun p => p.1 == k).map Prod.snd

/-- `Map.set`: replace the binding in place when the key exists, append
otherwise. -/
def assocSet : List (String × Nat) → String → Nat → List (String × Nat)
  | [], k, v => [(k, v)]
  | p :: rest, k, v =>
    if p.1 == k then (k, v) :: rest else p :: assocSet rest k v

/-- `Map.delete`. -/
def assocDel (m : List (String × Nat)) (k : String) : List (String × Nat) :=
  m.filter fun p => !(p.1 == k)

/-- Lookup a queue object by its id on the heap. -/
def heapGet (h : List (Nat × MQState)) (q : Nat) : Option MQState :=
  (h.find? fun p => p.1 == q).map Prod.snd

/-- Update a queue object in place on the heap. -/
def heapSet (h : List (Nat × MQState)) (q : Nat) (st : MQState) : List (Nat × MQState) :=
  h.map fun p => if p.1 == q then (q, st) else p

/-- State of the `ConnectionRegistry`: `connections` is the size of the
socket Set, `queueMap` the `messageQueues` Map holding references into the
`heap` of queue objects (objects survive on the heap when the map drops
them, mirroring JavaScript references), `graceTimer` whether
`reconnectGraceTimer` is non-null, plus the `isReconnecting` flag and
whether an `onConnectionLostCallback` was supplied. -/
structure Registry where
  connections : Nat
  queueMap : List (String × Nat)
  heap : List (Nat × MQState)
  graceTimer : Bool
  isReconnecting : Bool
  hasLostCallback : Bool
  nextQid : Nat
deriving Repr, DecidableEq

/-- Observable registry events. -/
inductive RegEvent where
  | queueClosed (requestId : String) (reason : String)
  | lostCallbackInvoked
deriving Repr, DecidableEq

/-- `this.messageQueues.forEach(queue => queue.close())`: every mapped
queue is closed with the DEFAULT reason `"unknown"` (no argument is
passed), emitting one event per map entry. -/
def closeQueuesGo (heap : List (Nat × MQState)) :
    List (String × Nat) → List (Nat × MQState) × List RegEvent
  | [] => (heap, [])
  | (rid, qid) :: rest =>
    let heap1 :=
      match heapGet heap qid with
      | some st => heapSet heap qid (st.closeOp "unknown").1
      | none => heap
    let y := closeQueuesGo heap1 rest
    (y.1, RegEvent.queueClosed rid "unknown" :: y.2)

/-- `addConnection` (ConnectionRegistry.js 30-46): when a grace timer is
pending, cancel it and close-and-drop ALL registered queues before adding
the socket. -/
def Registry.addConnection (reg : Registry) : Registry × List RegEvent :=
  if reg.graceTimer then
    let y := closeQueuesGo reg.heap reg.queueMap
    ({ reg with
        graceTimer := false
        heap := y.1
        queueMap := []
        connections := reg.connections + 1 }, y.2)
  else
    ({ reg with connections := reg.connections + 1 }, [])

/-- `_removeConnection` (ConnectionRegistry.js 48-58, 82-86): drop the
socket, clear any running grace timer and start a fresh 60 s one. -/
def Registry.removeConnection (reg : Registry) : Registry × List RegEvent :=
  ({ reg with connections := reg.connections - 1, graceTimer := true }, [])

/-- The grace timer's `setTimeout` body (ConnectionRegistry.js 59-83),
which can only run while the timer is pending: close all queues (default
reason `"unknown"`), clear the map, and invoke the external callback when
one was supplied and `isReconnecting` is not set (the flag is restored to
`false` in the `finally`, so the net state change leaves it clear). -/
def Registry.graceExpire (reg : Registry) : Registry × List RegEvent :=
  if reg.graceTimer then
    let y := closeQueuesGo reg.heap reg.queueMap
    let cb : List RegEvent :=
      if reg.hasLostCallback && !reg.isReconnecting then [RegEvent.lostCallbackInvoked] else []
    ({ reg with heap := y.1, queueMap := [], graceTimer := false }, y.2 ++ cb)
  else (reg, [])

/-- `createMessageQueue(requestId)` (ConnectionRegistry.js 135-139): build
a fresh `MessageQueue` and `set` it into the map.  The source neither
closes nor touches any queue previously bound to the same request id (the
prior object merely becomes unreachable from the map), and it accepts no
identity argument. -/
def Registry.createMessageQueue (reg : Registry) (rid : String) : Registry × Nat :=
  let qid := reg.nextQid
  ({ reg with
      heap := reg.heap ++ [(qid, MQState.initial)]
      queueMap := assocSet reg.queueMap rid qid
      nextQid := reg.nextQid + 1 }, qid)

/-- `removeMessageQueue(requestId)` (ConnectionRegistry.js 141-147): close
the mapped queue — `queue.close()` with NO argument, hence reason
`"unknown"` — and delete the binding.  The source takes a single
parameter; a reason passed by callers is silently ignored. -/
def Registry.removeMessageQueue (reg : Registry) (rid : String) : Registry × List RegEvent :=
  match assocGet reg.queueMap rid with
  | some qid =>
    let heap1 :=
      match heapGet reg.heap qid with
      | some st => heapSet reg.heap qid (st.closeOp "unknown").1
      | none => reg.heap
    ({ reg with heap := heap1, queueMap := assocDel reg.queueMap rid },
     [RegEvent.queueClosed rid "unknown"])
  | none => (reg, [])

/-- A consumer holding the queue object with id `qid` performs a
`dequeue()` on it (the registry map is not consulted). -/
def Registry.queueDequeue (reg : Registry) (qid : Nat) : Registry × List MQEvent :=
  match heapGet reg.heap qid with
  | some st =>
    let y := st.dequeue
    ({ reg with heap := heapSet reg.heap qid y.1 }, y.2)
  | none => (reg, [])

/-- The method names defined on the `ConnectionRegistry` class in
src/core/ConnectionRegistry.js (lines 30-147).  Notably absent are
`getAuthIndexForRequest`, `getConnectionByAuth`,
`isReconnectingInProgress` and `broadcastMessage`, all of which
RequestHandler.js invokes on its `connectionRegistry`. -/
def connectionRegistryMethods : List String :=
  ["constructor", "addConnection", "_removeConnection", "_handleIncomingMessage",
   "_routeMessage", "hasActiveConnections", "isInGracePeriod", "getFirstConnection",
   "createMessageQueue", "removeMessageQueue"]

/- ===================== Retry loop (RequestHandler.js 1757-1862) ===================== -/

/-- The result of the `dequeue()` of an attempt's first frame. -/
inductive DqOutcome where
  | msg (eventType : String) (status : Option Int) (msgText : String)
  | closedErr (reason : String)
  | timeoutThrown
deriving Repr, DecidableEq

/-- The structured error payload `{message, status}` recovered from a
thrown error (by `JSON.parse(error.message)` or the fallback). -/
structure ErrorPayload where
  message : String
  status : Option Int
deriving Repr, DecidableEq

/-- Whether the haystack starts with the needle (character lists). -/
def charsStartWith : List Char → List Char → Bool
  | [], _ => true
  | _ :: _, [] => false
  | a :: as, b :: bs => a == b && charsStartWith as bs

/-- Whether the needle occurs anywhere in the haystack (`String.includes`). -/
def charsOccur : List Char → List Char → Bool
  | needle, [] => needle.isEmpty
  | needle, c :: rest => charsStartWith needle (c :: rest) || charsOccur needle rest

/-- Marker test of `_isConnectionResetError` (RequestHandler.js 82-97)
restricted to its message branch: the message contains "Queue closed",
"Queue is closed" or "Connection lost". -/
def containsResetMarker (s : String) : Bool :=
  charsOccur "Queue closed".data s.data ||
  charsOccur "Queue is closed".data s.data ||
  charsOccur "Connection lost".data s.data

/-- `_isConnectionResetError` applied to a plain `{message, status}` error
payload (no `QueueClosedError` instance, no `code` field): only the
message markers can fire. -/
def isConnResetPayload (p : ErrorPayload) : Bool :=
  containsResetMarker p.message

/-- JavaScript `x || 500` on the `status` field (`undefined` and `0` are
falsy). -/
def jsStatusOr500 : Option Int → Int
  | some v => if v == 0 then 500 else v
  | none => 500

/-- Configuration consumed by the retry loop. -/
structure RetryConfig where
  maxRetries : Int
  immediateSwitchStatusCodes : List Int
deriving Repr, DecidableEq

/-- Events the retry loop emits towards the registry and the agent. -/
inductive RetryEv where
  | proxySent
  | cancelSent
  | oldQueueClosed (reason : String)
  | newQueueCreated
deriving Repr, DecidableEq

/-- Return value of `_executeRequestWithRetries`:
`{success, error, message}` (the queue reference is omitted). -/
structure RetryResult where
  success : Bool
  error : Option ErrorPayload
  firstMsg : Option DqOutcome
deriving Repr, DecidableEq

/-- How the try-block's throw is turned into `(errorPayload, isReset)` by
the catch block (RequestHandler.js 1769-1802):
`event_type === "timeout"` throws a stringified `{status: 504}` object
whose fixed message carries no reset marker; `event_type === "error"`
throws the stringified frame, so `JSON.parse` recovers the frame and the
reset check sees its message text; a `QueueClosedError` from `dequeue`
fails `JSON.parse` (fallback `status: 500`) and is a reset by instance; a
`QueueTimeoutError` fails `JSON.parse` and carries no marker.  `none`
means the attempt succeeded. -/
def attemptThrow : DqOutcome → Option (ErrorPayload × Bool)
  | DqOutcome.msg et st mt =>
    if et == "timeout" then
      some ({ message := "Request timed out waiting for browser response.", status := some 504 }, false)
    else if et == "error" then
      some ({ message := mt, status := st }, containsResetMarker mt)
    else none
  | DqOutcome.closedErr r =>
    some ({ message := "Queue is closed (reason: " ++ r ++ ")", status := some 500 }, true)
  | DqOutcome.timeoutThrown =>
    some ({ message := "Queue timeout", status := some 500 }, false)

/-- `immediateSwitchStatusCodes.includes(errorPayload.status)` (an absent
status never matches). -/
def statusInCodes (p : ErrorPayload) (codes : List Int) : Bool :=
  match p.status with
  | some v => decide (v ∈ codes)
  | none => false

/-- The `for (attempt = 1; attempt <= maxRetries; attempt++)` loop of
`_executeRequestWithRetries` (RequestHandler.js 1763-1858).  `oracle n`
is what attempt `n`'s first `dequeue()` produces; `fuel` counts the
attempts still admitted by the loop bound (callers pass
`maxRetries.toNat`, keeping `fuel = 0 ↔ attempt > maxRetries`).  Each
iteration sends a `proxy_request`; a reset aborts with the fixed
503 payload; an immediate-switch status or the last attempt breaks with
the parsed payload; otherwise the loop cancels on the old identity,
closes the old queue with `"retry_creating_new_queue"`, creates a fresh
queue and retries. -/
def runRetriesGo (cfg : RetryConfig) (oracle : Nat → DqOutcome) :
    Nat → Nat → Option ErrorPayload → RetryResult × List RetryEv
  | _, 0, lastError => ({ success := false, error := lastError, firstMsg := none }, [])
  | attempt, fuel + 1, _ =>
    match attemptThrow (oracle attempt) with
    | none =>
      ({ success := true, error := none, firstMsg := some (oracle attempt) },
       [RetryEv.proxySent])
    | some (payload, isReset) =>
      if isReset then
        ({ success := false,
           error := some { message := "Connection lost (client disconnect)", status := some 503 },
           firstMsg := none }, [RetryEv.proxySent])
      else if statusInCodes payload cfg.immediateSwitchStatusCodes then
        ({ success := false, error := some payload, firstMsg := none }, [RetryEv.proxySent])
      else if cfg.maxRetries ≤ (attempt : Int) then
        ({ success := false, error := some payload, firstMsg := none }, [RetryEv.proxySent])
      else
        let next := runRetriesGo cfg oracle (attempt + 1) fuel (some payload)
        (next.1,
         [RetryEv.proxySent, RetryEv.cancelSent,
          RetryEv.oldQueueClosed "retry_creating_new_queue", RetryEv.newQueueCreated] ++ next.2)

/-- `_executeRequestWithRetries` from attempt 1. -/
def runRetries (cfg : RetryConfig) (oracle : Nat → DqOutcome) : RetryResult × List RetryEv :=
  runRetriesGo cfg oracle 1 cfg.maxRetries.toNat none

/-- The failure branch of `_handleNonStreamResponse`
(RequestHandler.js 1643-1658): `authSwitcher.handleRequestFailureAndSwitch`
is invoked exactly when the error is neither user-aborted (the
`isUserAbortedError` predicate lives in the absent CustomErrors module and
is kept abstract as `ua`) nor a connection reset. -/
def nonStreamFailureCallsSwitch (e : Option ErrorPayload) (ua : Bool) : Bool :=
  match e with
  | some p => if ua then false else !(isConnResetPayload p)
  | none => false

/-- Modelled from the spec: `AuthSwitcher.recordFailure` (spec section 4.D;
src/auth/AuthSwitcher.js is not under src/).  The spec makes
`handleRequestFailureAndSwitch` the only failure-path mutation of the
identity's failure counter: it increments the counter; when it is not
invoked the counter is untouched. -/
def applyFailureHandling (failureCount : Nat) (callsSwitch : Bool) : Nat :=
  if callsSwitch then failureCount + 1 else failureCount

/-- What the caller reads on the failure branch:
`result.error.status || 500` (RequestHandler.js 1658).  Reading `.status`
of a `null` error is a TypeError. -/
def callerReadsErrorStatus : Option ErrorPayload → Except String Int
  | none => Except.error "TypeError: cannot read status of null"
  | some p => Except.ok (jsStatusOr500 p.status)

/- ===================== JSON model ===================== -/

/-- A JSON value (numbers restricted to integers, which covers every
literal the embedded code manipulates). -/
inductive Json where
  | null : Json
  | bool (b : Bool) : Json
  | num (n : Int) : Json
  | str (s : String) : Json
  | arr (elems : List Json) : Json
  | obj (fields : List (String × Json)) : Json

/-- Property access `o.k` (undefined on non-objects and absent keys). -/
def Json.getField : Json → String → Option Json
  | Json.obj fs, k => (fs.find? fun p => p.1 == k).map Prod.snd
  | _, _ => none

/-- Element access `a[0]`. -/
def Json.index0 : Json → Option Json
  | Json.arr (x :: _) => some x
  | _ => none

/-- JavaScript truthiness of a possibly-undefined value. -/
def jsTruthy : Option Json → Bool
  | none => false
  | some Json.null => false
  | some (Json.bool b) => b
  | some (Json.num n) => !(n == 0)
  | some (Json.str s) => !(s == "")
  | some (Json.arr _) => true
  | some (Json.obj _) => true

/-- Replace the value under a key, keeping its position (JavaScript
property assignment on an existing key). -/
def Json.setField : Json → String → Json → Json
  | Json.obj fs, k, v => Json.obj (fs.map fun p => if p.1 == k then (k, v) else p)
  | j, _, _ => j

mutual

/-- JavaScript template-literal coercion `${x}` of a JSON value. -/
def Json.toTemplateString : Json → String
  | Json.null => "null"
  | Json.bool b => cond b "true" "false"
  | Json.num n => toString n
  | Json.str s => s
  | Json.arr xs => String.intercalate "," (jsonTemplateList xs)
  | Json.obj _ => "[object Object]"

/-- Template coercion of each element of an array. -/
def jsonTemplateList : List Json → List String
  | [] => []
  | x :: xs => Json.toTemplateString x :: jsonTemplateList xs

end

/-- Template coercion of a possibly-undefined value (`${undefined}` is
`"undefined"`). -/
def jsTemplateOpt : Option Json → String
  | none => "undefined"
  | some j => j.toTemplateString

/-- Hexadecimal digit for the `\u` escapes of `JSON.stringify`. -/
def hexDigit (n : Nat) : Char :=
  if n < 10 then Char.ofNat (48 + n) else Char.ofNat (87 + n)

/-- Four-digit lowercase hex rendering. -/
def hex4 (n : Nat) : String :=
  String.mk [hexDigit ((n / 4096) % 16), hexDigit ((n / 256) % 16),
             hexDigit ((n / 16) % 16), hexDigit (n % 16)]

/-- Character escaping of `JSON.stringify` for string values. -/
def jsonEscapeChar (c : Char) : String :=
  if c = '"' then "\\\""
  else if c = '\\' then "\\\\"
  else if c = '\n' then "\\n"
  else if c = '\r' then "\\r"
  else if c = '\t' then "\\t"
  else if c.toNat < 32 then "\\u" ++ hex4 c.toNat
  else String.singleton c

/-- String escaping of `JSON.stringify`. -/
def jsonEscape (s : String) : String :=
  String.join (s.data.map jsonEscapeChar)

mutual

/-- `JSON.stringify` without spacing. -/
def jsonStringify : Json → String
  | Json.null => "null"
  | Json.bool b => cond b "true" "false"
  | Json.num n => toString n
  | Json.str s => "\"" ++ jsonEscape s ++ "\""
  | Json.arr xs => "[" ++ String.intercalate "," (jsonStringifyList xs) ++ "]"
  | Json.obj fs => "\x7b" ++ String.intercalate "," (jsonStringifyFields fs) ++ "\x7d"

/-- Stringify each element of an array. -/
def jsonStringifyList : List Json → List String
  | [] => []
  | x :: xs => jsonStringify x :: jsonStringifyList xs

/-- Stringify each field of an object. -/
def jsonStringifyFields : List (String × Json) → List String
  | [] => []
  | (k, v) :: fs => ("\"" ++ jsonEscape k ++ "\":" ++ jsonStringify v) :: jsonStringifyFields fs

end

/- ===================== Image rewrite and non-stream body (RequestHandler.js) ===================== -/

/-- The Markdown image text built at RequestHandler.js 1740. -/
def mkMarkdownImage (image : Json) : String :=
  "![Generated Image](data:" ++ jsTemplateOpt (image.getField "mimeType") ++
  ";base64," ++ jsTemplateOpt (image.getField "data") ++ ")"

/-- `_processImageInResponse` (RequestHandler.js 1723-1755) on an already
parsed body: find the first part of `candidates[0].content.parts` with a
truthy `inlineData` and replace it by the single Markdown text part;
return the body unchanged when the shape does not match (the source's
catch / `needsReserialization === false` paths). -/
def processImageInResponse (b : Json) : Json :=
  match b.getField "candidates" with
  | some (Json.arr (cand :: restCands)) =>
    (match cand.getField "content" with
     | some content =>
       (match content.getField "parts" with
        | some (Json.arr parts) =>
          (match parts.findIdx? fun p => jsTruthy (p.getField "inlineData") with
           | some i =>
             let image := ((parts.getD i Json.null).getField "inlineData").getD Json.null
             let newPart := Json.obj [("text", Json.str (mkMarkdownImage image))]
             let content2 := content.setField "parts" (Json.arr (parts.set i newPart))
             let cand2 := cand.setField "content" content2
             b.setField "candidates" (Json.arr (cand2 :: restCands))
           | none => b)
        | _ => b)
     | none => b)
  | _ => b

/-- Frames consumed by `_handleNonStreamResponse`'s reception loop
(RequestHandler.js 1673-1692) after the successful first frame. -/
inductive NSFrame where
  | chunk (data : String)
  | errorF (message : String)
  | streamEnd
  | other
deriving Repr, DecidableEq

/-- The reception loop: concatenate the `chunk` data until `STREAM_END`;
an `error` frame aborts the body (an error response is sent instead);
other frames are skipped.  `none` means no body was sent.  The
accumulated buffer is sent to the client AS IS (`res.send(fullBodyBuffer)`
at line 1713): `_processImageInResponse` is not applied to it. -/
def collectNonStream : List NSFrame → Option String
  | [] => none
  | NSFrame.streamEnd :: _ => some ""
  | NSFrame.errorF _ :: _ => none
  | NSFrame.chunk d :: rest => (collectNonStream rest).map fun r => d ++ r
  | NSFrame.other :: rest => collectNonStream rest

/- ===================== Pseudo-stream splitting (RequestHandler.js 1438-1513) ===================== -/

/-- Strict equality `p.thought === true`. -/
def isThoughtTrue (p : Json) : Bool :=
  match p.getField "thought" with
  | some (Json.bool true) => true
  | _ => false

/-- One SSE `data:` record written by the pseudo-stream handler: either a
stringified JSON object or the raw accumulated body (the structural
fallback at lines 1499-1505). -/
inductive SSERec where
  | json (j : Json)
  | rawBody

/-- An optional field of an object literal whose value may be `undefined`
(`JSON.stringify` drops such keys, so the record omits them). -/
def optField (k : String) : Option Json → List (String × Json)
  | some v => [(k, v)]
  | none => []

/-- The record-splitting logic of `_handlePseudoStreamResponse` on the
parsed accumulated body (RequestHandler.js 1438-1505): when
`candidates[0].content.parts` is an array, split it into thought parts
(`thought === true`) and content parts; emit the thoughts-only record
(no `finishReason`, no `usageMetadata`) when there is at least one
thought part; then emit the content record (with the candidate's
`finishReason` and the response's `usageMetadata`) when there is at least
one content part, or an empty-content record when there is none but the
candidate has a truthy `finishReason`.  Otherwise fall back to the raw
body as a single record. -/
def pseudoStreamRecords (resp : Json) : List SSERec :=
  match (resp.getField "candidates").bind Json.index0 with
  | some cand =>
    (match cand.getField "content" with
     | some content =>
       (match content.getField "parts" with
        | some (Json.arr parts) =>
          let thinkingParts := parts.filter isThoughtTrue
          let contentParts := parts.filter fun p => !(isThoughtTrue p)
          let role :=
            match content.getField "role" with
            | some r => if jsTruthy (some r) then r else Json.str "model"
            | none => Json.str "model"
          let thinkRecs : List SSERec :=
            if thinkingParts.length > 0 then
              [SSERec.json (Json.obj
                [("candidates", Json.arr
                  [Json.obj [("content", Json.obj [("parts", Json.arr thinkingParts), ("role", role)])]])])]
            else []
          let contRecs : List SSERec :=
            if contentParts.length > 0 then
              [SSERec.json (Json.obj
                (("candidates", Json.arr
                  [Json.obj
                    (("content", Json.obj [("parts", Json.arr contentParts), ("role", role)]) ::
                     optField "finishReason" (cand.getField "finishReason"))]) ::
                 optField "usageMetadata" (resp.getField "usageMetadata")))]
            else if jsTruthy (cand.getField "finishReason") then
              [SSERec.json (Json.obj
                (("candidates", Json.arr
                  [Json.obj
                    [("content", Json.obj [("parts", Json.arr []), ("role", role)]),
                     ("finishReason", (cand.getField "finishReason").getD Json.null)]]) ::
                 optField "usageMetadata" (resp.getField "usageMetadata")))]
            else []
          thinkRecs ++ contRecs
        | _ => [SSERec.rawBody])
     | none => [SSERec.rawBody])
  | none => [SSERec.rawBody]

/- ===================== URL rewriting (build.js and _setResponseHeaders) ===================== -/

/-- A URL split the way `new URL(...)` exposes it: `host`, `pathname`, and
the query as an ordered parameter list (its serialization is `.search`). -/
structure UrlT where
  host : String
  pathname : String
  query : List (String × String)
deriving Repr, DecidableEq

/-- Join query entries with `&`. -/
def ampJoin : List String → String
  | [] => ""
  | [x] => x
  | x :: y :: xs => x ++ "&" ++ ampJoin (y :: xs)

/-- `URL.search`: empty string for no parameters, else `?k=v&...`. -/
def searchSerialize (q : List (String × String)) : String :=
  match q with
  | [] => ""
  | _ => "?" ++ ampJoin (q.map fun p => p.1 ++ "=" ++ p.2)

/-- The agent-side response-header rewrite (`_transmitHeaders`,
build.js 678-697) for a `location` / `x-goog-upload-url` value containing
`googleapis.com`: keep pathname and query, append
`__proxy_host__=<original host>` as the last query parameter, and point
the URL at the relaying host (`proxyHost || location.host`). -/
def transmitHeaderRewrite (u : UrlT) (hostUsed : String) : UrlT :=
  { host := hostUsed, pathname := u.pathname,
    query := u.query ++ [("__proxy_host__", u.host)] }

/-- The server-side rewrite of the same headers (`_setResponseHeaders`,
RequestHandler.js 1979-1999): replace the authority by the client-facing
one, preserving `pathname` and `search` verbatim. -/
def serverHeaderRewrite (u : UrlT) (clientHost : String) : UrlT :=
  { host := clientHost, pathname := u.pathname, query := u.query }

/-- `URLSearchParams.get`: the first value bound to the key. -/
def queryLookup (q : List (String × String)) (k : String) : Option String :=
  (q.find? fun p => p.1 == k).map Prod.snd

/-- `URLSearchParams.delete`: remove every binding of the key. -/
def queryDelete (q : List (String × String)) (k : String) : List (String × String) :=
  q.filter fun p => !(p.1 == k)

/-- The `__proxy_host__` re-targeting block of the agent's `_constructUrl`
(build.js 300-314): when the query carries `__proxy_host__`, fetch
against that host with the parameter stripped; otherwise use the default
upstream host. -/
def constructTargetFromQuery (u : UrlT) (defaultHost : String) : String × String :=
  match queryLookup u.query "__proxy_host__" with
  | some h => (h, u.pathname ++ searchSerialize (queryDelete u.query "__proxy_host__"))
  | none => (defaultHost, u.pathname ++ searchSerialize u.query)

/- ===================== Concrete instances used by the theorems ===================== -/

/-- A registry with one live socket and no queues. -/
def c1Reg0 : Registry :=
  { connections := 1, queueMap := [], heap := [], graceTimer := false,
    isReconnecting := false, hasLostCallback := true, nextQid := 0 }

/-- After `createMessageQueue("r1")`. -/
def c1Reg1 : Registry := (c1Reg0.createMessageQueue "r1").1

/-- After the pipeline parks a `dequeue()` on the first queue (object 0). -/
def c1Reg2 : Registry := (c1Reg1.queueDequeue 0).1

/-- After a second `createMessageQueue("r1")` with the same request id. -/
def c1Reg3 : Registry := (c1Reg2.createMessageQueue "r1").1

/-- A registry inside the 60 s grace window (a socket just closed) with one
registered open queue for request `"r1"`. -/
def c2Reg : Registry :=
  { connections := 0, queueMap := [("r1", 0)], heap := [(0, MQState.initial)],
    graceTimer := true, isReconnecting := false, hasLostCallback := true, nextQid := 1 }

/-- A registry with one live socket and one registered queue for request
`"req_1"` on which a `dequeue()` is parked. -/
def c3Reg : Registry :=
  { connections := 1, queueMap := [("req_1", 0)],
    heap := [(0, { messages := [], waiters := 1, closed := false, closeReason := none })],
    graceTimer := false, isReconnecting := false, hasLostCallback := false, nextQid := 1 }

/-- A part carrying inline image data, as in an image-generation response. -/
def imgPart (mime data : String) : Json :=
  Json.obj [("inlineData", Json.obj [("mimeType", Json.str mime), ("data", Json.str data)])]

/-- A response body whose `candidates[0].content.parts` is
`pre ++ [image part] ++ post`. -/
def mkImageBody (pre post : List Json) (mime data : String) : Json :=
  Json.obj [("candidates", Json.arr
    [Json.obj [("content", Json.obj [("parts", Json.arr (pre ++ imgPart mime data :: post))])]])]

/-- The same body with the image part replaced by the single Markdown text
part the spec describes. -/
def mkRewrittenBody (pre post : List Json) (mime data : String) : Json :=
  Json.obj [("candidates", Json.arr
    [Json.obj [("content", Json.obj [("parts", Json.arr
      (pre ++ Json.obj [("text",
        Json.str ("![Generated Image](data:" ++ mime ++ ";base64," ++ data ++ ")"))] :: post))])]])]

/-- A concrete upstream body containing an inline PNG. -/
def c4Body : Json := mkImageBody [] [] "image/png" "AAAA"

/-- A part with `thought: true`. -/
def thoughtPart : Json := Json.obj [("thought", Json.bool true), ("text", Json.str "t")]

/-- A plain content part. -/
def plainPart : Json := Json.obj [("text", Json.str "answer")]

/-- An accumulated pseudo-stream body built from a parts list, a role, and
optional `finishReason` / `usageMetadata` (absent fields are dropped by
`JSON.stringify`, so they are simply omitted). -/
def mkPseudoResp (parts : List Json) (r : String) (fr um : Option Json) : Json :=
  Json.obj (("candidates", Json.arr
    [Json.obj (("content", Json.obj [("parts", Json.arr parts), ("role", Json.str r)]) ::
      optField "finishReason" fr)]) :: optField "usageMetadata" um)

/-- The thoughts-only SSE record the handler emits first: only the thought
parts, and neither a `finishReason` nor a `usageMetadata` key. -/
def thinkingRecordOf (parts : List Json) (r : String) : Json :=
  Json.obj [("candidates", Json.arr
    [Json.obj [("content", Json.obj
      [("parts", Json.arr (parts.filter isThoughtTrue)), ("role", Json.str r)])]])]

/-- The content SSE record the handler emits second: the non-thought parts
together with the candidate's `finishReason` and the response's
`usageMetadata`. -/
def contentRecordOf (parts : List Json) (r : String) (fr um : Option Json) : Json :=
  Json.obj (("candidates", Json.arr
    [Json.obj (("content", Json.obj
      [("parts", Json.arr (parts.filter fun p => !(isThoughtTrue p))), ("role", Json.str r)]) ::
      optField "finishReason" fr)]) :: optField "usageMetadata" um)

/-- An upstream body with one thought part, no content part and no
`finishReason`. -/
def c8Resp : Json := mkPseudoResp [thoughtPart] "model" none none

/-- Retry configuration with three retries and 429 as the only
immediate-switch status. -/
def cfg429 : RetryConfig := { maxRetries := 3, immediateSwitchStatusCodes := [429] }

/-- Every attempt's first dequeue yields an error frame with status 429. -/
def oracle429 : Nat → DqOutcome := fun _ => DqOutcome.msg "error" (some 429) "Resource exhausted"

/-- Every attempt's first dequeue yields an error frame with status 500. -/
def oracle500 : Nat → DqOutcome := fun _ => DqOutcome.msg "error" (some 500) "Internal failure"

/-- Every attempt's first dequeue throws `QueueClosedError` (the socket
died and the queue was closed mid-attempt). -/
def oracleClosed : Nat → DqOutcome := fun _ => DqOutcome.closedErr "client_disconnect"

/-- A concrete upstream redirect URL at `googleapis.com`. -/
def c9Url : UrlT :=
  { host := "googleapis.com", pathname := "/upload/v1beta/files", query := [("key", "k1")] }

/- ===================== Theorems ===================== -/

/-- C1: contrary to the spec (and to the comment at RequestHandler.js
1843-1844, which asserts that `createMessageQueue` "will automatically
close and remove any existing queue with the same ID"), a second
`createMessageQueue("r1")` leaves the prior queue object completely
untouched: it is still open (`closed = false`, `closeReason = none`) and
its parked waiter is still parked, so no `QueueClosed` with reason
`replaced_on_retry` is ever observed (that string occurs nowhere in the
repository).  Only the map binding is replaced, so at most one queue per
request id remains registered. -/
theorem createMessageQueue_leaves_prior_queue_open :
    heapGet c1Reg3.heap 0 =
      some { messages := [], waiters := 1, closed := false, closeReason := none } ∧
    assocGet c1Reg3.queueMap "r1" = some 1 ∧
    (c1Reg3.queueMap.filter fun p => p.1 == "r1").length = 1 := by
  refine ⟨rfl, rfl, rfl⟩

/-- C2 counterexample: a socket re-added while the grace timer is pending
(that is, within 60 s of the close) does NOT leave the registered queues
alone — `addConnection` closes every one of them (with the default reason
`"unknown"`) and empties the map, refuting the claim that no registered
queue is closed on a timely re-add.  The `onConnectionLost` callback is
indeed not invoked. -/
theorem addConnection_within_grace_closes_queues :
    c2Reg.graceTimer = true ∧
    (c2Reg.addConnection).2 = [RegEvent.queueClosed "r1" "unknown"] ∧
    heapGet (c2Reg.addConnection).1.heap 0 =
      some { messages := [], waiters := 0, closed := true, closeReason := some "unknown" } ∧
    (c2Reg.addConnection).1.queueMap = [] := by
  refine ⟨rfl, rfl, rfl, rfl⟩

/-- C3: the claim requires the client-disconnect handler to look the
owning identity up from the registry and close the queue with reason
`client_disconnect`, and `_setupClientDisconnectHandler`
(RequestHandler.js 2114-2147) indeed calls
`connectionRegistry.getAuthIndexForRequest(requestId)` and
`connectionRegistry.removeMessageQueue(requestId, "client_disconnect")` —
but the `ConnectionRegistry` class shipped under src/ defines neither
`getAuthIndexForRequest` nor `getConnectionByAuth` (the handler's method
call throws a TypeError, so no `cancel_request` frame is sent), and its
`removeMessageQueue` takes only the request id, closing the queue with
the default reason `"unknown"`, which a parked waiter then observes
instead of `client_disconnect`. -/
theorem clientDisconnect_registry_mismatch :
    ("getAuthIndexForRequest" ∉ connectionRegistryMethods) ∧
    ("getConnectionByAuth" ∉ connectionRegistryMethods) ∧
    (c3Reg.removeMessageQueue "req_1").1.heap =
      [(0, { messages := [], waiters := 0, closed := true, closeReason := some "unknown" })] ∧
    (c3Reg.removeMessageQueue "req_1").2 = [RegEvent.queueClosed "req_1" "unknown"] ∧
    (MQState.closeOp { messages := [], waiters := 1, closed := false, closeReason := none }
        "unknown").2 = [MQEvent.closedErr "unknown"] ∧
    "unknown" ≠ "client_disconnect" := by
  refine ⟨by decide, by decide, rfl, rfl, rfl, by decide⟩

/-- C4 counterexample: for a concrete non-stream response whose single
chunk is the serialized `c4Body` (which parses back to a body containing
an `inlineData` part with `mimeType`/`data`), the reception loop of
`_handleNonStreamResponse` sends the concatenated buffer verbatim — it
never applies `_processImageInResponse`, whose output on this body is a
different string — so the client does NOT receive the rewritten part. -/
theorem nonStream_image_not_rewritten :
    collectNonStream [NSFrame.chunk (jsonStringify c4Body), NSFrame.streamEnd] =
      some (jsonStringify c4Body) ∧
    jsonStringify (processImageInResponse c4Body) ≠ jsonStringify c4Body := by
  constructor
  · simp [collectNonStream]
  · decide

/-- C8 counterexample: an upstream body whose parts are one thought part
and no content part (N = 1, M = 0) and which carries no `finishReason`
makes the pseudo-stream handler emit exactly ONE SSE data record (the
thoughts-only record), not the two records the claim demands for N thought
parts and M content parts. -/
theorem pseudoStream_thoughts_only_single_record :
    ([thoughtPart].filter isThoughtTrue).length = 1 ∧
    ([thoughtPart].filter fun p => !(isThoughtTrue p)).length = 0 ∧
    (pseudoStreamRecords c8Resp).length = 1 := by
  refine ⟨rfl, rfl, rfl⟩

/-- C10: with a configured `maxRetries < 1` the `for` loop of
`_executeRequestWithRetries` never runs its body: no `proxy_request`
frame is sent and the function returns `{success: false, error: null}`;
the caller's failure branch then evaluates `result.error.status`, which
is a TypeError on the null error, so `maxRetries ≥ 1` is a precondition
for every caller's failure path. -/
theorem retryLoop_zero_retries_returns_null_error (cfg : RetryConfig)
    (oracle : Nat → DqOutcome) (h : cfg.maxRetries < 1) :
    runRetries cfg oracle = ({ success := false, error := none, firstMsg := none }, []) ∧
    callerReadsErrorStatus (runRetries cfg oracle).1.error =
      Except.error "TypeError: cannot read status of null" := by
  have h0 : cfg.maxRetries.toNat = 0 := by omega
  rw [runRetries, h0]
  exact ⟨rfl, rfl⟩

/-- C10 witness: a configuration with `maxRetries = 0`. -/
theorem retryLoop_zero_retries_returns_null_error_witness :
    runRetries { maxRetries := 0, immediateSwitchStatusCodes := [] } oracle500 =
      ({ success := false, error := none, firstMsg := none }, []) := by
  exact (retryLoop_zero_retries_returns_null_error
    { maxRetries := 0, immediateSwitchStatusCodes := [] } oracle500 (by decide)).1

/-- The catch block's translation of an `error` frame: the frame is
re-thrown stringified, `JSON.parse` recovers it, and the reset check sees
its message text. -/
theorem attemptThrow_error_frame (st : Option Int) (mt : String) :
    attemptThrow (DqOutcome.msg "error" st mt) =
      some ({ message := mt, status := st }, containsResetMarker mt) := by
  rfl

/-- C6: when the first dequeue of an attempt throws `QueueClosedError`
(the queue was closed mid-attempt by a connection reset), the retry loop
aborts immediately — exactly one `proxy_request` was sent and no retry
bookkeeping happens — returning the fixed 503 payload; the caller's
failure branch then skips `handleRequestFailureAndSwitch` (the payload's
message matches the connection-reset markers), so the identity's failure
counter is unchanged and the response status is 503. -/
theorem retryLoop_queueClosed_aborts (cfg : RetryConfig) (oracle : Nat → DqOutcome)
    (r : String) (ua : Bool) (fc : Nat)
    (hmax : 1 ≤ cfg.maxRetries) (h1 : oracle 1 = DqOutcome.closedErr r) :
    runRetries cfg oracle =
      ({ success := false,
         error := some { message := "Connection lost (client disconnect)", status := some 503 },
         firstMsg := none }, [RetryEv.proxySent]) ∧
    nonStreamFailureCallsSwitch (runRetries cfg oracle).1.error ua = false ∧
    applyFailureHandling fc (nonStreamFailureCallsSwitch (runRetries cfg oracle).1.error ua) = fc ∧
    callerReadsErrorStatus (runRetries cfg oracle).1.error = Except.ok 503 := by
  have h0 : cfg.maxRetries.toNat = (cfg.maxRetries.toNat - 1) + 1 := by omega
  have hrun : runRetries cfg oracle =
      ({ success := false,
         error := some { message := "Connection lost (client disconnect)", status := some 503 },
         firstMsg := none }, [RetryEv.proxySent]) := by
    rw [runRetries, h0, runRetriesGo, h1]
    rfl
  have hmark : containsResetMarker "Connection lost (client disconnect)" = true := by decide
  refine ⟨hrun, ?_, ?_, ?_⟩
  · rw [hrun]
    cases ua <;> simp [nonStreamFailureCallsSwitch, isConnResetPayload, hmark]
  · rw [hrun]
    cases ua <;> simp [nonStreamFailureCallsSwitch, isConnResetPayload, hmark, applyFailureHandling]
  · rw [hrun]
    rfl

/-- C6 witness: three retries configured, the first attempt's dequeue
fails with a closed queue. -/
theorem retryLoop_queueClosed_aborts_witness :
    runRetries cfg429 oracleClosed =
      ({ success := false,
         error := some { message := "Connection lost (client disconnect)", status := some 503 },
         firstMsg := none }, [RetryEv.proxySent]) ∧
    applyFailureHandling 5 (nonStreamFailureCallsSwitch (runRetries cfg429 oracleClosed).1.error false) = 5 := by
  have h := retryLoop_queueClosed_aborts cfg429 oracleClosed "client_disconnect" false 5
    (by decide) rfl
  exact ⟨h.1, h.2.2.1⟩

/-- Helper for C7: when every attempt's first frame is an error frame
whose status is not in `immediateSwitchStatusCodes` and whose message
carries no reset marker, the loop performs exactly `fuel` further
attempts (one `proxy_request` each) and ends in failure. -/
theorem runRetriesGo_all_error_count (cfg : RetryConfig) (oracle : Nat → DqOutcome)
    (st : Int) (mt : String)
    (hclean : containsResetMarker mt = false)
    (hnotin : st ∉ cfg.immediateSwitchStatusCodes)
    (hall : ∀ i, oracle i = DqOutcome.msg "error" (some st) mt) :
    ∀ (fuel attempt : Nat) (lastE : Option ErrorPayload),
      (attempt : Int) + fuel = cfg.maxRetries + 1 →
      (runRetriesGo cfg oracle attempt fuel lastE).2.count RetryEv.proxySent = fuel ∧
      (runRetriesGo cfg oracle attempt fuel lastE).1.success = false := by
  intro fuel
  induction fuel with
  | zero =>
    intro attempt lastE hlink
    simp [runRetriesGo]
  | succ n ih =>
    intro attempt lastE hlink
    rw [runRetriesGo, hall attempt, attemptThrow_error_frame, hclean]
    rcases Nat.eq_zero_or_pos n with h0 | hpos
    · subst h0
      have hge : cfg.maxRetries ≤ (attempt : Int) := by
        push_cast at hlink
        omega
      simp [statusInCodes, hnotin, hge]
    · have hlt : ¬ cfg.maxRetries ≤ (attempt : Int) := by
        push_cast at hlink
        omega
      have ihr := ih (attempt + 1) (some { message := mt, status := some st })
        (by push_cast at hlink ⊢; omega)
      simp [statusInCodes, hnotin, hlt, List.count_append, List.count_cons, ihr.1, ihr.2]

/-- C7: an error frame whose status is in the configured
`immediateSwitchStatusCodes` makes the loop break out of the very first
attempt — one `proxy_request` sent, no queue re-creation, the remaining
retries unconsumed — whereas when every attempt yields an error frame
with a status outside that set, the loop consumes all `maxRetries`
attempts (one `proxy_request` per attempt) before failing. -/
theorem retryLoop_immediate_switch_vs_retry (cfg : RetryConfig) (oracle : Nat → DqOutcome)
    (st : Int) (mt : String)
    (hclean : containsResetMarker mt = false) (hmax : 1 ≤ cfg.maxRetries) :
    (oracle 1 = DqOutcome.msg "error" (some st) mt → st ∈ cfg.immediateSwitchStatusCodes →
      runRetries cfg oracle =
        ({ success := false, error := some { message := mt, status := some st },
           firstMsg := none }, [RetryEv.proxySent])) ∧
    ((∀ i, oracle i = DqOutcome.msg "error" (some st) mt) →
      st ∉ cfg.immediateSwitchStatusCodes →
      (runRetries cfg oracle).2.count RetryEv.proxySent = cfg.maxRetries.toNat ∧
      (runRetries cfg oracle).1.success = false) := by
  constructor
  · intro h1 hin
    have h0 : cfg.maxRetries.toNat = (cfg.maxRetries.toNat - 1) + 1 := by omega
    rw [runRetries, h0, runRetriesGo, h1, attemptThrow_error_frame, hclean]
    simp [statusInCodes, hin]
  · intro hall hnotin
    exact runRetriesGo_all_error_count cfg oracle st mt hclean hnotin hall
      cfg.maxRetries.toNat 1 none (by omega)

/-- C7 witness: with `maxRetries = 3` and immediate-switch set `[429]`, a
429 error frame aborts after one attempt while persistent 500 error
frames consume all three attempts. -/
theorem retryLoop_immediate_switch_vs_retry_witness :
    runRetries cfg429 oracle429 =
      ({ success := false,
         error := some { message := "Resource exhausted", status := some 429 },
         firstMsg := none }, [RetryEv.proxySent]) ∧
    (runRetries cfg429 oracle500).2.count RetryEv.proxySent = 3 := by
  have h1 := (retryLoop_immediate_switch_vs_retry cfg429 oracle429 429 "Resource exhausted"
    (by decide) (by decide)).1 rfl (by decide)
  have h2 := (retryLoop_immediate_switch_vs_retry cfg429 oracle500 500 "Internal failure"
    (by decide) (by decide)).2 (fun i => rfl) (by decide)
  exact ⟨h1, h2.1⟩

/-- Closing all mapped queues emits one `queueClosed _ "unknown"` event per
map entry, in map order. -/
theorem closeQueuesGo_events (m : List (String × Nat)) :
    ∀ h, (closeQueuesGo h m).2 = m.map fun p => RegEvent.queueClosed p.1 "unknown" := by
  induction m with
  | nil => intro h; rfl
  | cons p rest ih =>
    intro h
    cases p with
    | mk rid qid => simp [closeQueuesGo, ih]

/-- C2 (amended): while the grace timer is pending, a re-added socket
cancels the timer and `onConnectionLost` is not invoked, but every
registered queue IS closed (default reason `"unknown"`) and dropped; when
instead the timer expires, every registered queue is closed with the same
default reason `"unknown"` (not `connection_lost`) and the
`onConnectionLost` callback — when one is installed and no reconnect is in
flight — is invoked exactly once for that expiry. -/
theorem graceWindow_behavior (reg : Registry) (h : reg.graceTimer = true) :
    (reg.addConnection).2 = (reg.queueMap.map fun p => RegEvent.queueClosed p.1 "unknown") ∧
    (reg.addConnection).1.queueMap = [] ∧
    (reg.addConnection).1.graceTimer = false ∧
    (reg.addConnection).1.connections = reg.connections + 1 ∧
    RegEvent.lostCallbackInvoked ∉ (reg.addConnection).2 ∧
    (reg.hasLostCallback = true → reg.isReconnecting = false →
      (reg.graceExpire).2 =
        (reg.queueMap.map fun p => RegEvent.queueClosed p.1 "unknown") ++
          [RegEvent.lostCallbackInvoked] ∧
      (reg.graceExpire).2.count RegEvent.lostCallbackInvoked = 1 ∧
      (reg.graceExpire).1.queueMap = []) := by
  have hnotmem : RegEvent.lostCallbackInvoked ∉
      (reg.queueMap.map fun p => RegEvent.queueClosed p.1 "unknown") := by
    simp [List.mem_map]
  refine ⟨?_, ?_, ?_, ?_, ?_, ?_⟩
  · simp [Registry.addConnection, h, closeQueuesGo_events]
  · simp [Registry.addConnection, h]
  · simp [Registry.addConnection, h]
  · simp [Registry.addConnection, h]
  · simp [Registry.addConnection, h, closeQueuesGo_events]
  · intro hcb hrec
    refine ⟨?_, ?_, ?_⟩
    · simp [Registry.graceExpire, h, hcb, hrec, closeQueuesGo_events]
    · simp [Registry.graceExpire, h, hcb, hrec, closeQueuesGo_events,
        List.count_append, List.count_eq_zero.mpr hnotmem]
    · simp [Registry.graceExpire, h]

/-- C2 witness: a registry in its grace window with one registered queue
and an installed callback. -/
theorem graceWindow_behavior_witness :
    (c2Reg.addConnection).2 = [RegEvent.queueClosed "r1" "unknown"] ∧
    (c2Reg.graceExpire).2 =
      [RegEvent.queueClosed "r1" "unknown", RegEvent.lostCallbackInvoked] ∧
    (c2Reg.graceExpire).2.count RegEvent.lostCallbackInvoked = 1 := by
  have h := graceWindow_behavior c2Reg rfl
  have h6 := h.2.2.2.2.2 rfl rfl
  exact ⟨h.1, h6.1, h6.2.1⟩

/-- Delivered frames distribute over appended event lists. -/
theorem mqDelivered_append (a b : List MQEvent) :
    mqDelivered (a ++ b) = mqDelivered a ++ mqDelivered b := by
  simp [mqDelivered]

/-- No frame is delivered when waiters are rejected at close. -/
theorem mqDelivered_replicate_closedErr (n : Nat) (r : String) :
    mqDelivered (List.replicate n (MQEvent.closedErr r)) = [] := by
  simp [mqDelivered]

/-- Every operation preserves closedness. -/
theorem mqStep_closed_state (s : MQState) (op : MQOp) (h : s.closed = true) :
    (s.step op).1.closed = true := by
  cases op with
  | enq f => simp [MQState.step, MQState.enqueue, h]
  | deq => simp [MQState.step, MQState.dequeue, h]
  | close r => simp [MQState.step, MQState.closeOp]
  | timerFire =>
    by_cases hw : s.waiters > 0 <;> simp [MQState.step, MQState.timerFire, hw, h]

/-- A closed queue never delivers a frame in one step. -/
theorem mqStep_closed_delivers_nothing (s : MQState) (op : MQOp) (h : s.closed = true) :
    mqDelivered (s.step op).2 = [] := by
  cases op with
  | enq f => simp [MQState.step, MQState.enqueue, h, mqDelivered]
  | deq => simp [MQState.step, MQState.dequeue, h, mqDelivered]
  | close r =>
    simp [MQState.step, MQState.closeOp, mqDelivered_replicate_closedErr]
  | timerFire =>
    by_cases hw : s.waiters > 0 <;> simp [MQState.step, MQState.timerFire, hw, mqDelivered]

/-- From a closed queue no run delivers anything and no frame is accepted. -/
theorem mq_closed_run (ops : List MQOp) :
    ∀ s : MQState, s.closed = true →
      mqDelivered (mqRun s ops).2 = [] ∧ mqAccepted s ops = [] := by
  induction ops with
  | nil => intro s h; exact ⟨rfl, rfl⟩
  | cons op ops ih =>
    intro s h
    have h1 := mqStep_closed_state s op h
    have h2 := mqStep_closed_delivers_nothing s op h
    obtain ⟨ha, hb⟩ := ih (s.step op).1 h1
    constructor
    · simp [mqRun, mqDelivered_append, h2, ha]
    · cases op with
      | enq f => simp [mqAccepted, h, hb]
      | deq => simpa [mqAccepted] using hb
      | close r => simpa [mqAccepted] using hb
      | timerFire => simpa [mqAccepted] using hb

/-- Bookkeeping invariant behind FIFO delivery: from an open state
satisfying the structural invariant, the frames delivered during any run
form a prefix of the buffered frames followed by the accepted frames. -/
theorem mq_fifo_aux (ops : List MQOp) :
    ∀ s : MQState, MQInv s → s.closed = false →
      ∃ t, mqDelivered (mqRun s ops).2 ++ t = s.messages ++ mqAccepted s ops := by
  induction ops with
  | nil =>
    intro s hinv hopen
    exact ⟨s.messages, by simp [mqRun, mqAccepted, mqDelivered]⟩
  | cons op ops ih =>
    rintro ⟨msgs, w, c, cr⟩ hinv hopen
    simp only at hopen
    subst hopen
    cases op with
    | enq f =>
      by_cases hw : w > 0
      · have hmsg : msgs = [] := hinv.1 hw
        subst hmsg
        obtain ⟨t, ht⟩ := ih ⟨[], w - 1, false, cr⟩ ⟨fun _ => rfl, fun hc => by cases hc⟩ rfl
        refine ⟨t, ?_⟩
        simp only [mqRun, mqAccepted, MQState.step, MQState.enqueue, mqDelivered_append]
        simp [hw, mqDelivered] at ht ⊢
        exact ht
      · obtain ⟨t, ht⟩ := ih ⟨msgs ++ [f], w, false, cr⟩
          ⟨fun hgt => absurd hgt hw, fun hc => by cases hc⟩ rfl
        refine ⟨t, ?_⟩
        simp only [mqRun, mqAccepted, MQState.step, MQState.enqueue, mqDelivered_append]
        simp [hw, mqDelivered] at ht ⊢
        simpa using ht
    | deq =>
      cases hm : msgs with
      | cons m rest =>
        obtain ⟨t, ht⟩ := ih ⟨rest, w, false, cr⟩
          ⟨fun hgt => by
              have := hinv.1 hgt
              simp [hm] at this,
           fun hc => by cases hc⟩ rfl
        refine ⟨t, ?_⟩
        subst hm
        simp only [mqRun, mqAccepted, MQState.step, MQState.dequeue, mqDelivered_append]
        simp [mqDelivered] at ht ⊢
        exact ht
      | nil =>
        subst hm
        obtain ⟨t, ht⟩ := ih ⟨[], w + 1, false, cr⟩ ⟨fun _ => rfl, fun hc => by cases hc⟩ rfl
        refine ⟨t, ?_⟩
        simp only [mqRun, mqAccepted, MQState.step, MQState.dequeue, mqDelivered_append]
        simp [mqDelivered] at ht ⊢
        exact ht
    | close r =>
      obtain ⟨ha, hb⟩ := mq_closed_run ops ⟨[], 0, true, some r⟩ rfl
      refine ⟨msgs, ?_⟩
      simp only [mqRun, mqAccepted, MQState.step, MQState.closeOp, mqDelivered_append,
        mqDelivered_replicate_closedErr, ha, hb]
      simp
    | timerFire =>
      by_cases hw : w > 0
      · obtain ⟨t, ht⟩ := ih ⟨msgs, w - 1, false, cr⟩
          ⟨fun hgt => hinv.1 (show w > 0 by
            have hgt2 : w - 1 > 0 := hgt
            omega), fun hc => by cases hc⟩ rfl
        refine ⟨t, ?_⟩
        simp only [mqRun, mqAccepted, MQState.step, MQState.timerFire, mqDelivered_append]
        simp [hw, mqDelivered] at ht ⊢
        exact ht
      · obtain ⟨t, ht⟩ := ih ⟨msgs, w, false, cr⟩ hinv rfl
        refine ⟨t, ?_⟩
        simp only [mqRun, mqAccepted, MQState.step, MQState.timerFire, mqDelivered_append]
        simp [hw, mqDelivered] at ht ⊢
        exact ht

/-- C5: over any sequence of queue operations from a fresh queue, the
frames delivered to dequeuers form a prefix of the accepted frames — each
accepted frame is delivered at most once, in FIFO order, and nothing else
is ever delivered; a `dequeue` on a queue already closed with reason `r`
fails with `QueueClosed` carrying that stored reason; and a `close(r)`
releases every parked waiter with `QueueClosed` reason `r`. -/
theorem messageQueue_fifo_and_close_semantics :
    (∀ ops : List MQOp,
      ∃ t, mqDelivered (mqRun MQState.initial ops).2 ++ t = mqAccepted MQState.initial ops) ∧
    (∀ (s : MQState) (r : String), s.closed = true → s.closeReason = some r →
      s.dequeue = (s, [MQEvent.closedErr r])) ∧
    (∀ (s : MQState) (r : String),
      (s.closeOp r).2 = List.replicate s.waiters (MQEvent.closedErr r)) := by
  refine ⟨?_, ?_, ?_⟩
  · intro ops
    have h := mq_fifo_aux ops MQState.initial ⟨fun _ => rfl, fun _ => rfl⟩ rfl
    simpa [MQState.initial] using h
  · intro s r hc hr
    simp [MQState.dequeue, hc, hr]
  · intro s r
    rfl

/-- C5 witness: a concrete run exercising the prefix property, a closed
queue whose stored reason is observed by `dequeue`, and a close releasing
one parked waiter. -/
theorem messageQueue_fifo_and_close_semantics_witness :
    (∃ t, mqDelivered (mqRun MQState.initial [MQOp.enq 1, MQOp.enq 2, MQOp.deq]).2 ++ t =
      mqAccepted MQState.initial [MQOp.enq 1, MQOp.enq 2, MQOp.deq]) ∧
    MQState.dequeue
        { messages := [], waiters := 0, closed := true, closeReason := some "request_complete" } =
      ({ messages := [], waiters := 0, closed := true, closeReason := some "request_complete" },
       [MQEvent.closedErr "request_complete"]) ∧
    (MQState.closeOp { messages := [], waiters := 1, closed := false, closeReason := none }
        "client_disconnect").2 = [MQEvent.closedErr "client_disconnect"] := by
  refine ⟨messageQueue_fifo_and_close_semantics.1 _,
    messageQueue_fifo_and_close_semantics.2.1 _ _ rfl rfl, ?_⟩
  have h := messageQueue_fifo_and_close_semantics.2.2
    { messages := [], waiters := 1, closed := false, closeReason := none } "client_disconnect"
  simpa using h

/-- Helper: the first index satisfying the predicate in `pre ++ x :: post`
is `pre.length` when nothing in `pre` satisfies it and `x` does. -/
theorem findIdx_append_eq_length {α : Type} (p : α → Bool) (pre : List α) (x : α)
    (post : List α) (hpre : ∀ a ∈ pre, p a = false) (hx : p x = true) :
    (pre ++ x :: post).findIdx? p = some pre.length := by
  induction pre with
  | nil => simp [hx]
  | cons a rest ih =>
    have ha : p a = false := hpre a (by simp)
    have ihr := ih fun b hb => hpre b (by simp [hb])
    simp [ha, List.findIdx?_succ, ihr]

/-- Helper: indexing `pre ++ x :: post` at `pre.length`. -/
theorem getD_append_eq_length {α : Type} (pre : List α) (x : α) (post : List α) (d : α) :
    (pre ++ x :: post).getD pre.length d = x := by
  induction pre with
  | nil => rfl
  | cons a rest ih => simpa using ih

/-- Helper: replacing the element at `pre.length` of `pre ++ x :: post`. -/
theorem set_append_eq_length {α : Type} (pre : List α) (x y : α) (post : List α) :
    (pre ++ x :: post).set pre.length y = pre ++ y :: post := by
  induction pre with
  | nil => rfl
  | cons a rest ih => simp [ih]

/-- C4 (amended): the helper `_processImageInResponse` does rewrite the
first inline-image part of `candidates[0].content.parts` into the single
Markdown text part `![Generated Image](data:<mime>;base64,<data>)` — but
the non-stream response path never invokes it: the reception loop of
`_handleNonStreamResponse` sends the concatenated chunk buffer unchanged,
so the client still receives the `inlineData` part. -/
theorem processImage_rewrites_but_nonStream_sends_raw (mime data : String)
    (pre post : List Json)
    (hpre : ∀ p ∈ pre, jsTruthy (p.getField "inlineData") = false) :
    processImageInResponse (mkImageBody pre post mime data) =
      mkRewrittenBody pre post mime data ∧
    (∀ s : String, collectNonStream [NSFrame.chunk s, NSFrame.streamEnd] = some s) := by
  constructor
  · have himg : jsTruthy ((imgPart mime data).getField "inlineData") = true := rfl
    have hfind := findIdx_append_eq_length (fun p => jsTruthy (p.getField "inlineData"))
      pre (imgPart mime data) post hpre himg
    have hget := getD_append_eq_length pre (imgPart mime data) post Json.null
    have hset := set_append_eq_length pre (imgPart mime data)
      (Json.obj [("text", Json.str ("![Generated Image](data:" ++ mime ++
        ";base64," ++ data ++ ")"))]) post
    have hc : (mkImageBody pre post mime data).getField "candidates" =
        some (Json.arr [Json.obj [("content",
          Json.obj [("parts", Json.arr (pre ++ imgPart mime data :: post))])]]) := rfl
    have hcontent : (Json.obj [("content",
        Json.obj [("parts", Json.arr (pre ++ imgPart mime data :: post))])]).getField
          "content" =
        some (Json.obj [("parts", Json.arr (pre ++ imgPart mime data :: post))]) := rfl
    have hparts : (Json.obj [("parts",
        Json.arr (pre ++ imgPart mime data :: post))]).getField "parts" =
        some (Json.arr (pre ++ imgPart mime data :: post)) := rfl
    have hinline : (imgPart mime data).getField "inlineData" =
        some (Json.obj [("mimeType", Json.str mime), ("data", Json.str data)]) := rfl
    have hmk : mkMarkdownImage (Json.obj [("mimeType", Json.str mime),
        ("data", Json.str data)]) =
        "![Generated Image](data:" ++ mime ++ ";base64," ++ data ++ ")" := rfl
    have hsf1 : ∀ v, (Json.obj [("parts",
        Json.arr (pre ++ imgPart mime data :: post))]).setField "parts" v =
        Json.obj [("parts", v)] := fun v => rfl
    have hsf2 : ∀ v, (Json.obj [("content",
        Json.obj [("parts", Json.arr (pre ++ imgPart mime data :: post))])]).setField
          "content" v = Json.obj [("content", v)] := fun v => rfl
    have hsf3 : ∀ v, (mkImageBody pre post mime data).setField "candidates" v =
        Json.obj [("candidates", v)] := fun v => rfl
    simp only [processImageInResponse, hc, hcontent, hparts, hfind, hget, hinline,
      Option.getD_some, hmk, hsf1, hsf2, hsf3, hset]
    rfl
  · intro s
    simp [collectNonStream]

/-- C4 witness: a body whose only part carries the inline PNG. -/
theorem processImage_rewrites_but_nonStream_sends_raw_witness :
    processImageInResponse (mkImageBody [] [] "image/png" "AAAA") =
      mkRewrittenBody [] [] "image/png" "AAAA" ∧
    collectNonStream [NSFrame.chunk "x", NSFrame.streamEnd] = some "x" := by
  have h := processImage_rewrites_but_nonStream_sends_raw "image/png" "AAAA" [] []
    (by intro p hp; cases hp)
  exact ⟨h.1, h.2 "x"⟩

/-- C8 (amended): with N thought parts and M content parts in
`candidates[0].content.parts`, the pseudo-stream handler emits exactly two
SSE data records when N > 0 and M > 0 — the thoughts-only record first
(carrying neither `finishReason` nor `usageMetadata`), then the content
record with the candidate's `finishReason` and the response's
`usageMetadata` — and exactly one record when N = 0 and M > 0.  (The
counterexample shows the claim's unconditional two-record clause fails at
M = 0.) -/
theorem pseudoStream_record_shape (parts : List Json) (r : String) (fr um : Option Json)
    (hr : r ≠ "") :
    (0 < (parts.filter isThoughtTrue).length →
     0 < (parts.filter fun p => !(isThoughtTrue p)).length →
      pseudoStreamRecords (mkPseudoResp parts r fr um) =
        [SSERec.json (thinkingRecordOf parts r),
         SSERec.json (contentRecordOf parts r fr um)]) ∧
    ((parts.filter isThoughtTrue).length = 0 →
     0 < (parts.filter fun p => !(isThoughtTrue p)).length →
      pseudoStreamRecords (mkPseudoResp parts r fr um) =
        [SSERec.json (contentRecordOf parts r fr um)]) := by
  have hcand : ((mkPseudoResp parts r fr um).getField "candidates").bind Json.index0 =
      some (Json.obj (("content", Json.obj [("parts", Json.arr parts),
        ("role", Json.str r)]) :: optField "finishReason" fr)) := rfl
  have hcontent : (Json.obj (("content", Json.obj [("parts", Json.arr parts),
      ("role", Json.str r)]) :: optField "finishReason" fr)).getField "content" =
      some (Json.obj [("parts", Json.arr parts), ("role", Json.str r)]) := rfl
  have hparts : (Json.obj [("parts", Json.arr parts),
      ("role", Json.str r)]).getField "parts" = some (Json.arr parts) := rfl
  have hrole : (Json.obj [("parts", Json.arr parts),
      ("role", Json.str r)]).getField "role" = some (Json.str r) := rfl
  have hfr : (Json.obj (("content", Json.obj [("parts", Json.arr parts),
      ("role", Json.str r)]) :: optField "finishReason" fr)).getField "finishReason" = fr := by
    cases fr <;> rfl
  have hum : (mkPseudoResp parts r fr um).getField "usageMetadata" = um := by
    cases um <;> rfl
  have hrb : (r == "") = false := beq_eq_false_iff_ne.mpr hr
  constructor
  · intro hN hM
    simp only [pseudoStreamRecords, hcand, hcontent, hparts, hrole, hfr, hum, jsTruthy,
      hrb, Bool.not_false, if_true, thinkingRecordOf, contentRecordOf]
    simp [hN, hM]
  · intro hN0 hM
    simp only [pseudoStreamRecords, hcand, hcontent, hparts, hrole, hfr, hum, jsTruthy,
      hrb, Bool.not_false, thinkingRecordOf, contentRecordOf]
    simp [hN0, hM]

/-- C8 witness: one thought part plus one content part yields the two
records; a lone content part yields one. -/
theorem pseudoStream_record_shape_witness :
    pseudoStreamRecords (mkPseudoResp [thoughtPart, plainPart] "model"
        (some (Json.str "STOP")) (some (Json.obj []))) =
      [SSERec.json (thinkingRecordOf [thoughtPart, plainPart] "model"),
       SSERec.json (contentRecordOf [thoughtPart, plainPart] "model"
        (some (Json.str "STOP")) (some (Json.obj [])))] ∧
    pseudoStreamRecords (mkPseudoResp [plainPart] "model"
        (some (Json.str "STOP")) none) =
      [SSERec.json (contentRecordOf [plainPart] "model" (some (Json.str "STOP")) none)] := by
  constructor
  · exact (pseudoStream_record_shape [thoughtPart, plainPart] "model"
      (some (Json.str "STOP")) (some (Json.obj [])) (by decide)).1
      (by decide) (by decide)
  · exact (pseudoStream_record_shape [plainPart] "model"
      (some (Json.str "STOP")) none (by decide)).2 (by decide) (by decide)

/-- Helper: appending one entry to a non-empty `&`-joined list. -/
theorem ampJoin_append_one (l : List String) (x : String) (h : l ≠ []) :
    ampJoin (l ++ [x]) = ampJoin l ++ "&" ++ x := by
  induction l with
  | nil => cases h rfl
  | cons a rest ih =>
    cases rest with
    | nil => rfl
    | cons b rest2 =>
      have ihr := ih (by simp)
      show ampJoin (a :: ((b :: rest2) ++ [x])) = ampJoin (a :: b :: rest2) ++ "&" ++ x
      calc ampJoin (a :: ((b :: rest2) ++ [x]))
          = a ++ "&" ++ ampJoin ((b :: rest2) ++ [x]) := rfl
        _ = a ++ "&" ++ (ampJoin (b :: rest2) ++ "&" ++ x) := by rw [ihr]
        _ = ampJoin (a :: b :: rest2) ++ "&" ++ x := by
            show a ++ "&" ++ (ampJoin (b :: rest2) ++ "&" ++ x) =
              a ++ "&" ++ ampJoin (b :: rest2) ++ "&" ++ x
            simp [String.append_assoc]

/-- Helper: folding the literal pieces of the `__proxy_host__` suffix. -/
theorem append_proxyHost_fold (a v : String) :
    a ++ "__proxy_host__" ++ "=" ++ v = a ++ "__proxy_host__=" ++ v := by
  rw [String.append_assoc a "__proxy_host__" "="]
  rfl

/-- Helper: serializing a query with `__proxy_host__=<v>` appended equals
the source's string concatenation `search + separator + "__proxy_host__=" +
host`, where the separator is `?` exactly when the query was empty. -/
theorem searchSerialize_append_proxyHost (q : List (String × String)) (v : String) :
    searchSerialize (q ++ [("__proxy_host__", v)]) =
      searchSerialize q ++ (if q = [] then "?" else "&") ++ "__proxy_host__=" ++ v := by
  cases q with
  | nil =>
    show searchSerialize [("__proxy_host__", v)] = "" ++ "?" ++ "__proxy_host__=" ++ v
    have h1 : searchSerialize [("__proxy_host__", v)] =
        "?" ++ ("__proxy_host__" ++ "=" ++ v) := rfl
    rw [h1, ← String.append_assoc, ← String.append_assoc]
    rfl
  | cons p rest =>
    have hmapne : ((p :: rest).map fun e => e.1 ++ "=" ++ e.2) ≠ [] := by simp
    have h1 : searchSerialize ((p :: rest) ++ [("__proxy_host__", v)]) =
        "?" ++ ampJoin (((p :: rest).map fun e => e.1 ++ "=" ++ e.2) ++
          ["__proxy_host__" ++ "=" ++ v]) := by
      simp [searchSerialize]
    rw [h1, ampJoin_append_one _ _ hmapne]
    have h2 : searchSerialize (p :: rest) =
        "?" ++ ampJoin ((p :: rest).map fun e => e.1 ++ "=" ++ e.2) := rfl
    rw [h2]
    simp only [if_neg (List.cons_ne_nil p rest)]
    simp [String.append_assoc]
    rw [← String.append_assoc "&" "__proxy_host__=" v]
    rfl

/-- Helper: `URLSearchParams.get("__proxy_host__")` on a query that did not
already carry the parameter returns the appended value. -/
theorem queryLookup_append_proxyHost (q : List (String × String)) (v : String)
    (hq : ∀ p ∈ q, p.1 ≠ "__proxy_host__") :
    queryLookup (q ++ [("__proxy_host__", v)]) "__proxy_host__" = some v := by
  induction q with
  | nil => rfl
  | cons p rest ih =>
    have hp : (p.1 == "__proxy_host__") = false :=
      beq_eq_false_iff_ne.mpr (hq p (by simp))
    have ihr := ih fun b hb => hq b (by simp [hb])
    simpa [queryLookup, hp] using ihr

/-- Helper: `URLSearchParams.delete("__proxy_host__")` strips exactly the
appended parameter. -/
theorem queryDelete_append_proxyHost (q : List (String × String)) (v : String)
    (hq : ∀ p ∈ q, p.1 ≠ "__proxy_host__") :
    queryDelete (q ++ [("__proxy_host__", v)]) "__proxy_host__" = q := by
  have hkeep : ∀ p ∈ q, (!(p.1 == "__proxy_host__")) = true := by
    intro p hp
    simp [beq_eq_false_iff_ne.mpr (hq p hp)]
  simp [queryDelete, List.filter_append, List.filter_eq_self.mpr hkeep]

/-- C9: relaying an upstream `location` / `x-goog-upload-url` header, the
agent rewrite keeps path and query, appends `__proxy_host__=<original
host>` exactly as the source concatenates it (`?` separator for an empty
search, `&` otherwise), and points the URL at the relaying host; the
server-side rewrite then swaps in the client-facing authority preserving
path and query; and a subsequent `proxy_request` at that URL makes the
agent strip the parameter and fetch against the original host with the
original path and query restored. -/
theorem headerRewrite_roundTrip (u : UrlT) (pageHost clientHost defaultHost : String)
    (hq : ∀ p ∈ u.query, p.1 ≠ "__proxy_host__") :
    searchSerialize (transmitHeaderRewrite u pageHost).query =
      searchSerialize u.query ++ (if u.query = [] then "?" else "&") ++
        "__proxy_host__=" ++ u.host ∧
    (transmitHeaderRewrite u pageHost).host = pageHost ∧
    (transmitHeaderRewrite u pageHost).pathname = u.pathname ∧
    (serverHeaderRewrite (transmitHeaderRewrite u pageHost) clientHost).host = clientHost ∧
    (serverHeaderRewrite (transmitHeaderRewrite u pageHost) clientHost).query =
      (transmitHeaderRewrite u pageHost).query ∧
    constructTargetFromQuery
        (serverHeaderRewrite (transmitHeaderRewrite u pageHost) clientHost) defaultHost =
      (u.host, u.pathname ++ searchSerialize u.query) := by
  refine ⟨?_, rfl, rfl, rfl, rfl, ?_⟩
  · exact searchSerialize_append_proxyHost u.query u.host
  · simp [constructTargetFromQuery, serverHeaderRewrite, transmitHeaderRewrite,
      queryLookup_append_proxyHost u.query u.host hq,
      queryDelete_append_proxyHost u.query u.host hq]

/-- C9 witness: a redirect at `googleapis.com` with one query parameter,
relayed through page host and client host, re-targets `googleapis.com`. -/
theorem headerRewrite_roundTrip_witness :
    searchSerialize (transmitHeaderRewrite c9Url "localhost:2048").query =
      searchSerialize c9Url.query ++ (if c9Url.query = [] then "?" else "&") ++
        "__proxy_host__=" ++ c9Url.host ∧
    constructTargetFromQuery
        (serverHeaderRewrite (transmitHeaderRewrite c9Url "localhost:2048") "10.0.0.2:7860")
        "generativelanguage.googleapis.com" =
      (c9Url.host, c9Url.pathname ++ searchSerialize c9Url.query) := by
  have h := headerRewrite_roundTrip c9Url "localhost:2048" "10.0.0.2:7860"
    "generativelanguage.googleapis.com" (by decide)
  exact ⟨h.1, h.2.2.2.2.2⟩
